import Mathlib

/-!
Shallow embedding of drivers/nvme/host/multipath.c (NVMe native multipath
core): path selection with a cached current path, failure classification of
completion status codes, the failover/requeue pipeline, the aggregate-device
request routing and polling entry points, and the namespace-head lifecycle
(alloc/remove of the multipath disk).

Pointers are modelled as identifiers (Nat); the controller state of a path is
the snapshot of ns->ctrl->state read during the call; side effects on the
namespace head are explicit state passing; external side effects
(blk_mq_end_request, nvme_reset_ctrl, kblockd_schedule_work, sysfs calls,
gendisk teardown) are recorded in the returned result.
-/

namespace NvmeMultipath

/-- Controller liveness states (enum nvme_ctrl_state); the multipath core only
ever compares against NVME_CTRL_LIVE. -/
inductive nvme_ctrl_state where
  | NEW
  | LIVE
  | RESETTING
  | RECONNECTING
  | DELETING
  | DEAD
deriving DecidableEq, Repr

open nvme_ctrl_state

/-- One path: a namespace handle reached through a single controller
(struct nvme_ns). The field ctrl_state is the snapshot of ns->ctrl->state
observed during the call under consideration; disk identifies ns->disk;
poll_result is the value ns->queue->poll_fn returns when the poll entry point
delegates to it. -/
structure nvme_ns where
  id : Nat
  ctrl_state : nvme_ctrl_state
  disk : Nat
  poll_result : Bool
deriving DecidableEq, Repr

/-- An I/O buffer (struct bio). The id models pointer identity; bi_disk is the
routing target (none for a NULL pointer); bi_opf_nvme_mpath is the
REQ_NVME_MPATH bit of bi_opf; bi_status is the completion status. -/
structure bio where
  id : Nat
  bi_disk : Option Nat
  bi_opf_nvme_mpath : Bool
  bi_status : Nat
deriving DecidableEq, Repr

/-- The namespace head (struct nvme_ns_head): the sibling path list in stored
order, the cached current_path pointer, the pending-requeue bio list, and the
aggregate gendisk (none when never allocated). -/
structure nvme_ns_head where
  list : List nvme_ns
  current_path : Option nvme_ns
  requeue_list : List bio
  disk : Option Nat
deriving DecidableEq, Repr

/-- A completed request (struct request together with its nvme_request): the
REQ_NVME_MPATH bit of cmd_flags, the NVMe completion status, and the bio
chain rq->bio .. rq->biotail. -/
structure request where
  req_nvme_mpath : Bool
  status : Nat
  bios : List bio
deriving DecidableEq, Repr

/-! NVMe status-code constants used by the classifier switch. Their numeric
values come from the NVMe specification (include/linux/nvme.h, which is
outside the reviewed unit); only their identity matters to the classifier. -/

def NVME_SC_INVALID_OPCODE : Nat := 0x1
def NVME_SC_INVALID_FIELD : Nat := 0x2
def NVME_SC_INVALID_NS : Nat := 0xb
def NVME_SC_LBA_RANGE : Nat := 0x80
def NVME_SC_CAP_EXCEEDED : Nat := 0x81
def NVME_SC_RESERVATION_CONFLICT : Nat := 0x83
def NVME_SC_BAD_ATTRIBUTES : Nat := 0x180
def NVME_SC_INVALID_PI : Nat := 0x181
def NVME_SC_READ_ONLY : Nat := 0x182
def NVME_SC_ONCS_NOT_SUPPORTED : Nat := 0x183
def NVME_SC_WRITE_FAULT : Nat := 0x280
def NVME_SC_READ_ERROR : Nat := 0x281
def NVME_SC_GUARD_CHECK : Nat := 0x282
def NVME_SC_APPTAG_CHECK : Nat := 0x283
def NVME_SC_REFTAG_CHECK : Nat := 0x284
def NVME_SC_COMPARE_FAILED : Nat := 0x285
def NVME_SC_ACCESS_DENIED : Nat := 0x286
def NVME_SC_UNWRITTEN_BLOCK : Nat := 0x287

/-- BLK_STS_IOERR from the block layer (value 10). -/
def BLK_STS_IOERR : Nat := 10

/-- Spec-side definition, following the words of the specification: the
listed unretryable status codes (sixteen list items; the
guard/application-tag/reference-tag check failures item covers three codes).
Used to compare the classifier against the table stated in the spec. -/
def spec_unretryable_codes : List Nat :=
  [NVME_SC_INVALID_OPCODE, NVME_SC_INVALID_FIELD, NVME_SC_INVALID_NS,
   NVME_SC_LBA_RANGE, NVME_SC_CAP_EXCEEDED, NVME_SC_RESERVATION_CONFLICT,
   NVME_SC_BAD_ATTRIBUTES, NVME_SC_INVALID_PI, NVME_SC_READ_ONLY,
   NVME_SC_ONCS_NOT_SUPPORTED, NVME_SC_WRITE_FAULT, NVME_SC_READ_ERROR,
   NVME_SC_GUARD_CHECK, NVME_SC_APPTAG_CHECK, NVME_SC_REFTAG_CHECK,
   NVME_SC_COMPARE_FAILED, NVME_SC_ACCESS_DENIED, NVME_SC_UNWRITTEN_BLOCK]

/-- ENOMEM errno value. -/
def ENOMEM : Int := 12

/-- nvme_req_needs_failover: the failure classifier. Returns false for a
request without the REQ_NVME_MPATH bit; otherwise switches on
status & 0x7ff: the eighteen listed unretryable status codes return false,
everything else returns true. Direct translation of the switch statement. -/
def nvme_req_needs_failover (req : request) : Bool :=
  if !req.req_nvme_mpath then
    false
  else
    let sc := req.status &&& 0x7ff
    if sc == NVME_SC_INVALID_OPCODE || sc == NVME_SC_INVALID_FIELD ||
       sc == NVME_SC_INVALID_NS || sc == NVME_SC_LBA_RANGE ||
       sc == NVME_SC_CAP_EXCEEDED || sc == NVME_SC_RESERVATION_CONFLICT then
      false
    else if sc == NVME_SC_BAD_ATTRIBUTES || sc == NVME_SC_INVALID_PI ||
       sc == NVME_SC_READ_ONLY || sc == NVME_SC_ONCS_NOT_SUPPORTED then
      false
    else if sc == NVME_SC_WRITE_FAULT || sc == NVME_SC_READ_ERROR ||
       sc == NVME_SC_GUARD_CHECK || sc == NVME_SC_APPTAG_CHECK ||
       sc == NVME_SC_REFTAG_CHECK || sc == NVME_SC_COMPARE_FAILED ||
       sc == NVME_SC_ACCESS_DENIED || sc == NVME_SC_UNWRITTEN_BLOCK then
      false
    else
      true

/-- Result of nvme_failover_req: the updated head (stolen bios appended to the
requeue list), the drained request (rq->bio cleared by blk_steal_bios), the
status passed to blk_mq_end_request, and the two external effects it fires. -/
structure failover_result where
  head : nvme_ns_head
  req : request
  end_request_status : Nat
  ctrl_reset_requested : Bool
  requeue_work_scheduled : Bool
deriving DecidableEq, Repr

/-- nvme_failover_req: under the requeue lock, blk_steal_bios splices every
bio of the request onto the tail of the pending-requeue list and clears
rq->bio; then blk_mq_end_request(req, 0) completes the request successfully;
then nvme_reset_ctrl is invoked on the owning controller and the requeue work
is scheduled. -/
def nvme_failover_req (req : request) (head : nvme_ns_head) : failover_result :=
  { head := { head with requeue_list := head.requeue_list ++ req.bios }
    req := { req with bios := [] }
    end_request_status := 0
    ctrl_reset_requested := true
    requeue_work_scheduled := true }

/-- The list_for_each_entry_rcu loop body of __nvme_find_path: first sibling
whose controller is LIVE, in stored list order. -/
def find_first_live : List nvme_ns → Option nvme_ns
  | [] => none
  | ns :: rest =>
      if ns.ctrl_state = LIVE then some ns else find_first_live rest

/-- __nvme_find_path: scan the sibling list in stored order; on the first LIVE
path, rcu_assign_pointer installs it as current_path and it is returned;
otherwise NULL is returned and the cache is left untouched. -/
def __nvme_find_path (head : nvme_ns_head) : Option nvme_ns × nvme_ns_head :=
  match find_first_live head.list with
  | some ns => (some ns, { head with current_path := some ns })
  | none => (none, head)

/-- nvme_find_path: srcu_dereference the cached current_path; if it is present
and its controller is LIVE return it unchanged, otherwise fall back to the
full scan __nvme_find_path. -/
def nvme_find_path (head : nvme_ns_head) : Option nvme_ns × nvme_ns_head :=
  match head.current_path with
  | some ns =>
      if ns.ctrl_state = LIVE then (some ns, head) else __nvme_find_path head
  | none => __nvme_find_path head

/-- Outcome of the aggregate-device make_request entry point: the bio was
dispatched down a path (direct_make_request, with its final field values),
enqueued on the pending-requeue list, or completed with an error
(bio_endio, with its final field values). -/
inductive route_result where
  | dispatched (b : bio)
  | requeued
  | failed (b : bio)
deriving DecidableEq, Repr

/-- nvme_ns_head_make_request: inside the SRCU read section, call
nvme_find_path; if a path is returned, retarget the bio to that path and set
REQ_NVME_MPATH, then dispatch; else if the sibling list is non-empty, append
the bio to the pending-requeue list under the requeue lock; else set
BLK_STS_IOERR and complete the bio. -/
def nvme_ns_head_make_request (head : nvme_ns_head) (b : bio) :
    route_result × nvme_ns_head :=
  match nvme_find_path head with
  | (some ns, head') =>
      (route_result.dispatched
        { b with bi_disk := some ns.disk, bi_opf_nvme_mpath := true }, head')
  | (none, head') =>
      if !head'.list.isEmpty then
        (route_result.requeued,
          { head' with requeue_list := head'.requeue_list ++ [b] })
      else
        (route_result.failed { b with bi_status := BLK_STS_IOERR }, head')

/-- nvme_ns_head_poll: srcu_dereference the cached current_path; only when it
is present and LIVE, delegate to the poll function of that path and return
its verdict; otherwise return false. The head is never modified. -/
def nvme_ns_head_poll (head : nvme_ns_head) : Bool × nvme_ns_head :=
  match head.current_path with
  | some ns =>
      if ns.ctrl_state = LIVE then (ns.poll_result, head) else (false, head)
  | none => (false, head)

/-- The bio_list_get step of nvme_requeue_work: under the requeue lock, detach
the whole pending list and leave the head with an empty list. -/
def requeue_swap (head : nvme_ns_head) : List bio × nvme_ns_head :=
  (head.requeue_list, { head with requeue_list := [] })

/-- The while loop of nvme_requeue_work: for each detached bio, clear bi_next
(implicit in the list representation), reset bi_disk to the aggregate mpath
disk and resubmit via generic_make_request; returns the resubmitted bios in
submission order. -/
def requeue_resubmit (disk : Option Nat) : List bio → List bio
  | [] => []
  | b :: rest => { b with bi_disk := disk } :: requeue_resubmit disk rest

/-- nvme_requeue_work: swap the pending list for an empty one under the lock,
then resubmit every bio of the detached generation against the aggregate
disk. Returns the resubmissions and the post-swap head. -/
def nvme_requeue_work (head : nvme_ns_head) : List bio × nvme_ns_head :=
  match requeue_swap head with
  | (gen, head') => (requeue_resubmit head.disk gen, head')

/-- The bio_list_add step of nvme_ns_head_make_request and of any concurrent
submitter: append one bio at the tail of the pending-requeue list under the
requeue lock. -/
def requeue_enqueue (head : nvme_ns_head) (b : bio) : nvme_ns_head :=
  { head with requeue_list := head.requeue_list ++ [b] }

/-- The controller fields nvme_mpath_alloc_disk reads: the CMIC capability
byte of the owning subsystem and the volatile-write-cache byte. -/
structure nvme_ctrl where
  cmic : Nat
  vwc : Nat
deriving DecidableEq, Repr

/-- NVME_CTRL_VWC_PRESENT bit (1 << 0). -/
def NVME_CTRL_VWC_PRESENT : Nat := 1

/-- Result of nvme_mpath_alloc_disk: the return value, the updated head, and
a record of the side effects performed on the way. -/
structure alloc_disk_result where
  ret : Int
  head : nvme_ns_head
  requeue_list_initialized : Bool
  requeue_lock_initialized : Bool
  requeue_work_initialized : Bool
  queue_allocated : Bool
  queue_cleaned : Bool
  make_request_registered : Bool
  poll_fn_registered : Bool
  write_cache_enabled : Bool
deriving DecidableEq, Repr

/-- nvme_mpath_alloc_disk: always initialize the requeue bio list, its
spinlock and the requeue work item; return 0 with no aggregate disk when the
subsystem CMIC multi-controller bit (1 << 1) is clear or the multipath module
parameter is off; otherwise allocate the queue (registering the make_request
and poll entry points on it) and the gendisk, returning -ENOMEM on either
allocation failure and cleaning up the queue when the disk allocation fails
after the queue succeeded. Allocation success is injected through
queue_alloc_ok / disk_alloc_ok; new_disk is the identity of the freshly
allocated gendisk. -/
def nvme_mpath_alloc_disk (multipath : Bool) (ctrl : nvme_ctrl)
    (head : nvme_ns_head) (queue_alloc_ok disk_alloc_ok : Bool)
    (new_disk : Nat) : alloc_disk_result :=
  let head0 : nvme_ns_head := { head with requeue_list := [] }
  let vwc : Bool := ctrl.vwc &&& NVME_CTRL_VWC_PRESENT != 0
  let base : alloc_disk_result :=
    { ret := 0
      head := head0
      requeue_list_initialized := true
      requeue_lock_initialized := true
      requeue_work_initialized := true
      queue_allocated := false
      queue_cleaned := false
      make_request_registered := false
      poll_fn_registered := false
      write_cache_enabled := false }
  if ctrl.cmic &&& 2 == 0 || !multipath then
    base
  else if !queue_alloc_ok then
    { base with ret := -ENOMEM }
  else if !disk_alloc_ok then
    { base with
        ret := -ENOMEM
        queue_allocated := true
        queue_cleaned := true
        make_request_registered := true
        poll_fn_registered := true
        write_cache_enabled := vwc }
  else
    { base with
        head := { head0 with disk := some new_disk }
        queue_allocated := true
        make_request_registered := true
        poll_fn_registered := true
        write_cache_enabled := vwc }

/-- The externally visible steps of nvme_mpath_remove_disk, in execution
order; the requeue_work_flush event carries the bios resubmitted by the final
synchronous drain (kblockd_schedule_work followed by flush_work). -/
inductive teardown_event where
  | sysfs_remove_group
  | del_gendisk
  | blk_set_queue_dying
  | requeue_work_flush (resubmitted : List bio)
  | blk_cleanup_queue
  | put_disk
deriving DecidableEq, Repr

/-- nvme_mpath_remove_disk: return immediately when no aggregate disk was
ever allocated; otherwise remove the sysfs identity group, delete the
gendisk, mark the queue dying, schedule and flush the requeue work (one
final synchronous drain), then clean up the queue and put the disk. Returns
the event trace in execution order together with the updated head. -/
def nvme_mpath_remove_disk (head : nvme_ns_head) :
    List teardown_event × nvme_ns_head :=
  match head.disk with
  | none => ([], head)
  | some _ =>
      match nvme_requeue_work head with
      | (resub, head') =>
          ([teardown_event.sysfs_remove_group,
            teardown_event.del_gendisk,
            teardown_event.blk_set_queue_dying,
            teardown_event.requeue_work_flush resub,
            teardown_event.blk_cleanup_queue,
            teardown_event.put_disk], head')

/-! Helper lemmas (shared between claims). -/

lemma mask_lt (s : Nat) : s &&& 0x7ff < 2048 := by
  have h := Nat.and_pow_two_sub_one_eq_mod s 11
  have h2 : s &&& 0x7ff = s % 2048 := by simpa using h
  rw [h2]
  exact Nat.mod_lt _ (by norm_num)

lemma mask_idem (s : Nat) : (s &&& 0x7ff) &&& 0x7ff = s &&& 0x7ff := by
  have h : ∀ x : Nat, x &&& 0x7ff = x % 2048 := fun x => by
    simpa using Nat.and_pow_two_sub_one_eq_mod x 11
  rw [h, h, Nat.mod_mod_of_dvd _ dvd_rfl]

lemma needs_failover_mask (tag : Bool) (s : Nat) (bs : List bio) :
    nvme_req_needs_failover { req_nvme_mpath := tag, status := s, bios := bs } =
      nvme_req_needs_failover
        { req_nvme_mpath := tag, status := s &&& 0x7ff, bios := bs } := by
  unfold nvme_req_needs_failover
  cases tag <;> simp [mask_idem]

lemma needs_failover_eq_mem (req : request) (htag : req.req_nvme_mpath = true) :
    (nvme_req_needs_failover req = false ↔
      req.status &&& 0x7ff ∈ spec_unretryable_codes) := by
  obtain ⟨tag, s, bs⟩ := req
  replace htag : tag = true := htag
  subst htag
  unfold nvme_req_needs_failover
  simp only [spec_unretryable_codes, List.mem_cons, List.not_mem_nil, or_false,
    Bool.not_true, Bool.false_eq_true, if_false]
  split_ifs with h1 h2 h3
  · simp only [Bool.or_eq_true, beq_iff_eq] at h1
    simp only [true_iff]
    tauto
  · simp only [Bool.or_eq_true, beq_iff_eq] at h2
    simp only [true_iff]
    tauto
  · simp only [Bool.or_eq_true, beq_iff_eq] at h3
    simp only [true_iff]
    tauto
  · simp only [Bool.or_eq_true, beq_iff_eq] at h1 h2 h3
    simp only [Bool.true_eq_false, false_iff]
    tauto

lemma find_first_live_mem {l : List nvme_ns} {ns : nvme_ns}
    (h : find_first_live l = some ns) : ns ∈ l ∧ ns.ctrl_state = LIVE := by
  induction l with
  | nil => simp [find_first_live] at h
  | cons x xs ih =>
      by_cases hx : x.ctrl_state = LIVE
      · simp only [find_first_live, hx, if_true, Option.some.injEq] at h
        subst h
        exact ⟨List.mem_cons_self _ _, hx⟩
      · simp only [find_first_live, hx, if_false] at h
        obtain ⟨hmem, hlive⟩ := ih h
        exact ⟨List.mem_cons_of_mem _ hmem, hlive⟩

lemma find_first_live_eq_none {l : List nvme_ns} :
    find_first_live l = none ↔ ∀ x ∈ l, x.ctrl_state ≠ LIVE := by
  induction l with
  | nil => simp [find_first_live]
  | cons x xs ih =>
      by_cases hx : x.ctrl_state = LIVE
      · simp [find_first_live, hx]
      · simp [find_first_live, hx, ih]

lemma find_first_live_some_of_exists {l : List nvme_ns}
    (h : ∃ x ∈ l, x.ctrl_state = LIVE) : ∃ ns, find_first_live l = some ns := by
  cases hfl : find_first_live l with
  | none =>
      rw [find_first_live_eq_none] at hfl
      obtain ⟨x, hx, hlive⟩ := h
      exact absurd hlive (hfl x hx)
  | some ns => exact ⟨ns, rfl⟩

lemma find_first_live_first {l : List nvme_ns} {ns : nvme_ns}
    (h : find_first_live l = some ns) :
    ∃ l₁ l₂, l = l₁ ++ ns :: l₂ ∧ ∀ x ∈ l₁, x.ctrl_state ≠ LIVE := by
  induction l with
  | nil => simp [find_first_live] at h
  | cons x xs ih =>
      by_cases hx : x.ctrl_state = LIVE
      · simp only [find_first_live, hx, if_true, Option.some.injEq] at h
        subst h
        exact ⟨[], xs, rfl, by intro y hy; simp at hy⟩
      · simp only [find_first_live, hx, if_false] at h
        obtain ⟨l₁, l₂, heq, hall⟩ := ih h
        refine ⟨x :: l₁, l₂, by simp [heq], ?_⟩
        intro y hy
        rcases List.mem_cons.mp hy with hy | hy
        · subst hy; exact hx
        · exact hall y hy

lemma __nvme_find_path_of_some {head : nvme_ns_head} {ns : nvme_ns}
    (h : find_first_live head.list = some ns) :
    __nvme_find_path head = (some ns, { head with current_path := some ns }) := by
  unfold __nvme_find_path
  rw [h]

lemma __nvme_find_path_of_none {head : nvme_ns_head}
    (h : find_first_live head.list = none) :
    __nvme_find_path head = (none, head) := by
  unfold __nvme_find_path
  rw [h]

lemma nvme_find_path_fst_live {head : nvme_ns_head} {ns : nvme_ns}
    (h : (nvme_find_path head).1 = some ns) : ns.ctrl_state = LIVE := by
  unfold nvme_find_path at h
  have hscan : ∀ h2 : (__nvme_find_path head).1 = some ns, ns.ctrl_state = LIVE := by
    intro h2
    unfold __nvme_find_path at h2
    cases hfl : find_first_live head.list with
    | none => rw [hfl] at h2; simp at h2
    | some m =>
        rw [hfl] at h2
        simp only [Option.some.injEq] at h2
        subst h2
        exact (find_first_live_mem hfl).2
  cases hcp : head.current_path with
  | none =>
      rw [hcp] at h
      exact hscan h
  | some c =>
      rw [hcp] at h
      by_cases hc : c.ctrl_state = LIVE
      · simp only [hc, if_true] at h
        simp only [Option.some.injEq] at h
        subst h
        exact hc
      · simp only [hc, if_false] at h
        exact hscan h

lemma nvme_find_path_snd (head : nvme_ns_head) :
    ∃ cp, (nvme_find_path head).2 = { head with current_path := cp } := by
  unfold nvme_find_path __nvme_find_path
  cases hcp : head.current_path with
  | none =>
      cases hfl : find_first_live head.list with
      | none => exact ⟨head.current_path, rfl⟩
      | some m => exact ⟨some m, rfl⟩
  | some c =>
      by_cases hc : c.ctrl_state = LIVE
      · simp only [hc, if_true]
        exact ⟨head.current_path, rfl⟩
      · simp only [hc, if_false]
        cases hfl : find_first_live head.list with
        | none => exact ⟨head.current_path, rfl⟩
        | some m => exact ⟨some m, rfl⟩

lemma requeue_resubmit_length (d : Option Nat) (l : List bio) :
    (requeue_resubmit d l).length = l.length := by
  induction l with
  | nil => rfl
  | cons b rest ih => simp [requeue_resubmit, ih]

lemma requeue_resubmit_map_id (d : Option Nat) (l : List bio) :
    (requeue_resubmit d l).map bio.id = l.map bio.id := by
  induction l with
  | nil => rfl
  | cons b rest ih => simp [requeue_resubmit, ih]

lemma requeue_resubmit_targets (d : Option Nat) (l : List bio) :
    ∀ x ∈ requeue_resubmit d l, x.bi_disk = d := by
  induction l with
  | nil => intro x hx; simp [requeue_resubmit] at hx
  | cons b rest ih =>
      intro x hx
      rcases List.mem_cons.mp hx with hx | hx
      · subst hx; rfl
      · exact ih x hx

lemma foldl_requeue_enqueue (h : nvme_ns_head) (ds : List bio) :
    (ds.foldl requeue_enqueue h).requeue_list = h.requeue_list ++ ds := by
  induction ds generalizing h with
  | nil => simp
  | cons b rest ih =>
      simp only [List.foldl_cons, ih, requeue_enqueue]
      simp

/-! Sample data used by the witness theorems. -/

/-- Sample path whose controller is not LIVE. -/
def nsA : nvme_ns :=
  { id := 1, ctrl_state := nvme_ctrl_state.RESETTING, disk := 11,
    poll_result := true }

/-- Sample path whose controller is LIVE. -/
def nsB : nvme_ns :=
  { id := 2, ctrl_state := LIVE, disk := 22, poll_result := true }

/-- Sample bios. -/
def bioX : bio :=
  { id := 101, bi_disk := some 11, bi_opf_nvme_mpath := true, bi_status := 0 }

def bioY : bio :=
  { id := 102, bi_disk := some 11, bi_opf_nvme_mpath := true, bi_status := 0 }

/-- Sample head with a stale cache: list [A, B], A cached but no longer LIVE,
B LIVE, two pending bios, aggregate disk 9. -/
def headAB : nvme_ns_head :=
  { list := [nsA, nsB], current_path := some nsA,
    requeue_list := [bioX, bioY], disk := some 9 }

/-- Sample head with no paths and no aggregate disk. -/
def headEmpty : nvme_ns_head :=
  { list := [], current_path := none, requeue_list := [], disk := none }

/-! Claim theorems. -/

/-- Claim C1: nvme_req_needs_failover is a pure function of the completion
status code and the multipath-routed tag: a request without the
REQ_NVME_MPATH tag always classifies false; a tagged request whose status
code (the low bits of the completion status) is one of the listed
unretryable codes classifies false; every other status code classifies
true; and identical tag and status always give identical verdicts. -/
theorem needs_failover_classification (req : request) :
    (req.req_nvme_mpath = false → nvme_req_needs_failover req = false) ∧
    (req.req_nvme_mpath = true →
      req.status &&& 0x7ff ∈ spec_unretryable_codes →
      nvme_req_needs_failover req = false) ∧
    (req.req_nvme_mpath = true →
      req.status &&& 0x7ff ∉ spec_unretryable_codes →
      nvme_req_needs_failover req = true) ∧
    (∀ r2 : request, r2.req_nvme_mpath = req.req_nvme_mpath →
      r2.status = req.status →
      nvme_req_needs_failover r2 = nvme_req_needs_failover req) := by
  refine ⟨?_, ?_, ?_, ?_⟩
  · intro h
    unfold nvme_req_needs_failover
    rw [h]
    rfl
  · intro ht hm
    exact (needs_failover_eq_mem req ht).mpr hm
  · intro ht hm
    cases hval : nvme_req_needs_failover req with
    | false => exact absurd ((needs_failover_eq_mem req ht).mp hval) hm
    | true => rfl
  · intro r2 h1 h2
    obtain ⟨t2, s2, b2⟩ := r2
    obtain ⟨t, s, bs⟩ := req
    replace h1 : t2 = t := h1
    replace h2 : s2 = s := h2
    subst h1
    subst h2
    rfl

/-- Witness for C1: a guard-check failure on a tagged request classifies
false, an unlisted code classifies true, an untagged request classifies
false. -/
theorem needs_failover_classification_witness :
    nvme_req_needs_failover
      { req_nvme_mpath := true, status := NVME_SC_GUARD_CHECK, bios := [] } = false ∧
    nvme_req_needs_failover
      { req_nvme_mpath := true, status := 6, bios := [] } = true ∧
    nvme_req_needs_failover
      { req_nvme_mpath := false, status := 6, bios := [] } = false :=
  ⟨(needs_failover_classification _).2.1 rfl (by decide),
   (needs_failover_classification _).2.2.1 rfl (by decide),
   (needs_failover_classification _).1 rfl⟩

/-- Claim C9: the classification of a tagged request depends only on the low
11 bits of the completion status: masking the status with 0x7ff leaves the
verdict unchanged, and any two tagged requests agreeing on the low 11 bits
get the same verdict. -/
theorem needs_failover_low_bits (req : request)
    (htag : req.req_nvme_mpath = true) :
    nvme_req_needs_failover req =
      nvme_req_needs_failover { req with status := req.status &&& 0x7ff } ∧
    ∀ r2 : request, r2.req_nvme_mpath = true →
      r2.status &&& 0x7ff = req.status &&& 0x7ff →
      nvme_req_needs_failover r2 = nvme_req_needs_failover req := by
  obtain ⟨t, s, bs⟩ := req
  replace htag : t = true := htag
  subst htag
  constructor
  · exact needs_failover_mask true s bs
  · intro r2 h1 h2
    obtain ⟨t2, s2, b2⟩ := r2
    replace h1 : t2 = true := h1
    subst h1
    replace h2 : s2 &&& 0x7ff = s &&& 0x7ff := h2
    have e1 := needs_failover_mask true s2 b2
    have e2 := needs_failover_mask true s bs
    rw [e1, e2, h2]
    rfl

/-- Witness for C9: status 0x4282 (DNR flag plus guard-check) and status
0x282 (guard-check) agree on the low 11 bits and classify identically. -/
theorem needs_failover_low_bits_witness :
    nvme_req_needs_failover
        { req_nvme_mpath := true, status := 0x4282, bios := [] } =
      nvme_req_needs_failover
        { req_nvme_mpath := true, status := 0x282, bios := [] } ∧
    nvme_req_needs_failover
        { req_nvme_mpath := true, status := 0x282, bios := [] } = false :=
  ⟨(needs_failover_low_bits
        { req_nvme_mpath := true, status := 0x282, bios := [] } rfl).2
      { req_nvme_mpath := true, status := 0x4282, bios := [] } rfl (by decide),
   by decide⟩

/-- Claim C2: nvme_find_path returns a LIVE path whenever some path in the
set is LIVE — the cached path if it is LIVE, otherwise the first LIVE path
in stored list order, which it installs as the new cache value — returns
none when no path is LIVE, and never returns a path that is not LIVE. The
hypothesis is the data-model invariant that a non-null cached path is a
member of the path set. -/
theorem find_path_selects_live (head : nvme_ns_head)
    (hmem : ∀ c, head.current_path = some c → c ∈ head.list) :
    (∀ ns, (nvme_find_path head).1 = some ns → ns.ctrl_state = LIVE) ∧
    ((∃ ns ∈ head.list, ns.ctrl_state = LIVE) →
      ∃ ns, (nvme_find_path head).1 = some ns ∧ ns.ctrl_state = LIVE) ∧
    ((∀ ns ∈ head.list, ns.ctrl_state ≠ LIVE) →
      (nvme_find_path head).1 = none) ∧
    (∀ c, head.current_path = some c → c.ctrl_state = LIVE →
      nvme_find_path head = (some c, head)) ∧
    ((head.current_path = none ∨
        ∃ c, head.current_path = some c ∧ c.ctrl_state ≠ LIVE) →
      ∀ ns, (nvme_find_path head).1 = some ns →
        (∃ l₁ l₂, head.list = l₁ ++ ns :: l₂ ∧ ∀ x ∈ l₁, x.ctrl_state ≠ LIVE) ∧
        (nvme_find_path head).2 = { head with current_path := some ns }) := by
  refine ⟨fun ns h => nvme_find_path_fst_live h, ?_, ?_, ?_, ?_⟩
  · intro hex
    unfold nvme_find_path
    cases hcp : head.current_path with
    | none =>
        obtain ⟨ns, hfl⟩ := find_first_live_some_of_exists hex
        rw [__nvme_find_path_of_some hfl]
        exact ⟨ns, rfl, (find_first_live_mem hfl).2⟩
    | some c =>
        by_cases hc : c.ctrl_state = LIVE
        · simp only [hc, if_true]
          exact ⟨c, rfl, hc⟩
        · simp only [hc, if_false]
          obtain ⟨ns, hfl⟩ := find_first_live_some_of_exists hex
          rw [__nvme_find_path_of_some hfl]
          exact ⟨ns, rfl, (find_first_live_mem hfl).2⟩
  · intro hall
    have hfl : find_first_live head.list = none := find_first_live_eq_none.mpr hall
    unfold nvme_find_path
    cases hcp : head.current_path with
    | none => rw [__nvme_find_path_of_none hfl]
    | some c =>
        have hc : c.ctrl_state ≠ LIVE := hall c (hmem c hcp)
        simp only [hc, if_false]
        rw [__nvme_find_path_of_none hfl]
  · intro c hcp hc
    unfold nvme_find_path
    rw [hcp]
    simp only [hc, if_true]
  · intro hstale ns hns
    have heq : nvme_find_path head = __nvme_find_path head := by
      unfold nvme_find_path
      rcases hstale with hn | ⟨c, hcp, hc⟩
      · rw [hn]
      · rw [hcp]
        simp only [hc, if_false]
    rw [heq] at hns ⊢
    cases hfl : find_first_live head.list with
    | none =>
        rw [__nvme_find_path_of_none hfl] at hns
        simp at hns
    | some m =>
        rw [__nvme_find_path_of_some hfl] at hns ⊢
        simp only [Option.some.injEq] at hns
        subst hns
        exact ⟨find_first_live_first hfl, rfl⟩

/-- Witness for C2: a head with an empty cache and path set [A (not LIVE),
B (LIVE)] selects a LIVE path, namely B. -/
theorem find_path_selects_live_witness :
    (∃ ns, (nvme_find_path
        { list := [nsA, nsB], current_path := none,
          requeue_list := [], disk := some 9 }).1 = some ns ∧
      ns.ctrl_state = LIVE) ∧
    (nvme_find_path
        { list := [nsA, nsB], current_path := none,
          requeue_list := [], disk := some 9 }).1 = some nsB :=
  ⟨(find_path_selects_live _ (fun c hc => Option.noConfusion hc)).2.1
      ⟨nsB, by decide, by decide⟩,
   by decide⟩

/-- Claim C6: when the cache is empty or the cached path is no longer LIVE,
nvme_find_path performs the full scan and never returns the stale cached
path: the result is none or a different path that is LIVE. -/
theorem find_path_never_stale (head : nvme_ns_head)
    (hstale : head.current_path = none ∨
      ∃ c, head.current_path = some c ∧ c.ctrl_state ≠ LIVE) :
    nvme_find_path head = __nvme_find_path head ∧
    (∀ c, head.current_path = some c → (nvme_find_path head).1 ≠ some c) ∧
    ((nvme_find_path head).1 = none ∨
      ∃ ns, (nvme_find_path head).1 = some ns ∧ ns.ctrl_state = LIVE) := by
  have heq : nvme_find_path head = __nvme_find_path head := by
    unfold nvme_find_path
    rcases hstale with hn | ⟨c, hcp, hc⟩
    · rw [hn]
    · rw [hcp]
      simp only [hc, if_false]
  refine ⟨heq, ?_, ?_⟩
  · intro c hcp habs
    have hlive : c.ctrl_state = LIVE := nvme_find_path_fst_live habs
    rcases hstale with hn | ⟨c2, hcp2, hc2⟩
    · rw [hn] at hcp
      exact Option.noConfusion hcp
    · rw [hcp2] at hcp
      simp only [Option.some.injEq] at hcp
      subst hcp
      exact hc2 hlive
  · cases hres : (nvme_find_path head).1 with
    | none => exact Or.inl rfl
    | some ns => exact Or.inr ⟨ns, rfl, nvme_find_path_fst_live hres⟩

/-- Witness for C6: path set [A, B] with A cached; A is no longer LIVE and B
is LIVE; the next nvme_find_path returns B, not the stale A. -/
theorem find_path_never_stale_witness :
    (nvme_find_path headAB).1 = some nsB ∧
    (nvme_find_path headAB).1 ≠ some nsA :=
  ⟨by decide,
   (find_path_never_stale headAB (Or.inr ⟨nsA, rfl, by decide⟩)).2.1 nsA rfl⟩

/-- Claim C10: nvme_ns_head_poll consults only the cached path: it delegates
to the poll function of the cached path exactly when the cache holds a LIVE
path, otherwise returns false; it never modifies the head and its verdict
does not depend on the path set (no scan). -/
theorem poll_consults_only_cache (head : nvme_ns_head) :
    (nvme_ns_head_poll head).2 = head ∧
    (∀ ns, head.current_path = some ns → ns.ctrl_state = LIVE →
      (nvme_ns_head_poll head).1 = ns.poll_result) ∧
    ((head.current_path = none ∨
        ∃ ns, head.current_path = some ns ∧ ns.ctrl_state ≠ LIVE) →
      (nvme_ns_head_poll head).1 = false) ∧
    (∀ l2 : List nvme_ns,
      nvme_ns_head_poll { head with list := l2 } =
        ((nvme_ns_head_poll head).1, { head with list := l2 })) := by
  obtain ⟨l, cp, rq, d⟩ := head
  refine ⟨?_, ?_, ?_, ?_⟩
  · cases cp with
    | none => rfl
    | some ns =>
        unfold nvme_ns_head_poll
        by_cases h : ns.ctrl_state = LIVE <;> simp [h]
  · intro ns hcp hlive
    replace hcp : cp = some ns := hcp
    subst hcp
    unfold nvme_ns_head_poll
    simp [hlive]
  · intro h
    rcases h with h | ⟨ns, hcp, hns⟩
    · replace h : cp = none := h
      subst h
      rfl
    · replace hcp : cp = some ns := hcp
      subst hcp
      unfold nvme_ns_head_poll
      simp [hns]
  · intro l2
    cases cp with
    | none => rfl
    | some ns =>
        unfold nvme_ns_head_poll
        by_cases h : ns.ctrl_state = LIVE <;> simp [h]

/-- Witness for C10: on the stale-cache head (A cached, not LIVE) the poll
returns false and changes nothing; on a LIVE cache it delegates. -/
theorem poll_consults_only_cache_witness :
    (nvme_ns_head_poll headAB).1 = false ∧
    (nvme_ns_head_poll headAB).2 = headAB :=
  ⟨(poll_consults_only_cache headAB).2.2.1 (Or.inr ⟨nsA, rfl, by decide⟩),
   (poll_consults_only_cache headAB).1⟩

/-- Claim C3: nvme_failover_req detaches all bios of the failed request into
the pending-requeue list of the head (appended at the tail, none lost),
clears the request, completes the request with status 0 (success), requests
a controller reset, and schedules the requeue work. The path set and cache
of the head are untouched. -/
theorem failover_absorbs_failure (req : request) (head : nvme_ns_head) :
    (nvme_failover_req req head).head.requeue_list =
      head.requeue_list ++ req.bios ∧
    (nvme_failover_req req head).req.bios = [] ∧
    (nvme_failover_req req head).end_request_status = 0 ∧
    (nvme_failover_req req head).ctrl_reset_requested = true ∧
    (nvme_failover_req req head).requeue_work_scheduled = true ∧
    (nvme_failover_req req head).head.list = head.list ∧
    (nvme_failover_req req head).head.current_path = head.current_path ∧
    (nvme_failover_req req head).head.requeue_list.length =
      head.requeue_list.length + req.bios.length := by
  refine ⟨rfl, rfl, rfl, rfl, rfl, rfl, rfl, ?_⟩
  simp [nvme_failover_req]

/-- Claim C4: nvme_ns_head_make_request has exactly three outcomes: a path
returned by the selector gets the bio, retargeted and tagged REQ_NVME_MPATH;
with no live path but a non-empty path set the bio is appended to the
pending-requeue list; with an empty path set the bio is completed with
BLK_STS_IOERR. In every case the bio is dispatched, queued or failed, never
dropped. -/
theorem make_request_three_outcomes (head : nvme_ns_head) (b : bio) :
    (∀ ns h2, nvme_find_path head = (some ns, h2) →
      nvme_ns_head_make_request head b =
        (route_result.dispatched
          { b with bi_disk := some ns.disk, bi_opf_nvme_mpath := true }, h2)) ∧
    (∀ h2, nvme_find_path head = (none, h2) → head.list ≠ [] →
      nvme_ns_head_make_request head b =
        (route_result.requeued,
          { h2 with requeue_list := h2.requeue_list ++ [b] })) ∧
    (∀ h2, nvme_find_path head = (none, h2) → head.list = [] →
      nvme_ns_head_make_request head b =
        (route_result.failed { b with bi_status := BLK_STS_IOERR }, h2)) ∧
    ((∃ nb, (nvme_ns_head_make_request head b).1 = route_result.dispatched nb ∧
        nb.id = b.id) ∨
      ((nvme_ns_head_make_request head b).1 = route_result.requeued ∧
        b ∈ (nvme_ns_head_make_request head b).2.requeue_list) ∨
      (∃ nb, (nvme_ns_head_make_request head b).1 = route_result.failed nb ∧
        nb.id = b.id)) := by
  have hdisp : ∀ ns h2, nvme_find_path head = (some ns, h2) →
      nvme_ns_head_make_request head b =
        (route_result.dispatched
          { b with bi_disk := some ns.disk, bi_opf_nvme_mpath := true }, h2) := by
    intro ns h2 hfp
    unfold nvme_ns_head_make_request
    rw [hfp]
  have hlist : ∀ h2, nvme_find_path head = (none, h2) → h2.list = head.list := by
    intro h2 hfp
    obtain ⟨cp, hsnd⟩ := nvme_find_path_snd head
    have h3 : h2 = (nvme_find_path head).2 := by rw [hfp]
    rw [h3, hsnd]
  have hrq : ∀ h2, nvme_find_path head = (none, h2) → head.list ≠ [] →
      nvme_ns_head_make_request head b =
        (route_result.requeued,
          { h2 with requeue_list := h2.requeue_list ++ [b] }) := by
    intro h2 hfp hne
    rcases hl3 : head.list with _ | ⟨x, xs⟩
    · exact absurd hl3 hne
    · have hl4 : h2.list = x :: xs := by rw [hlist h2 hfp, hl3]
      unfold nvme_ns_head_make_request
      rw [hfp]
      simp [hl4]
  have hfail : ∀ h2, nvme_find_path head = (none, h2) → head.list = [] →
      nvme_ns_head_make_request head b =
        (route_result.failed { b with bi_status := BLK_STS_IOERR }, h2) := by
    intro h2 hfp hnil
    have hl4 : h2.list = [] := by rw [hlist h2 hfp, hnil]
    unfold nvme_ns_head_make_request
    rw [hfp]
    simp [hl4]
  refine ⟨hdisp, hrq, hfail, ?_⟩
  rcases hm : nvme_find_path head with ⟨fst, h2⟩
  cases fst with
  | some ns =>
      exact Or.inl ⟨{ b with bi_disk := some ns.disk, bi_opf_nvme_mpath := true },
        by rw [hdisp ns h2 hm], rfl⟩
  | none =>
      rcases hl : head.list with _ | ⟨x, xs⟩
      · refine Or.inr (Or.inr ⟨{ b with bi_status := BLK_STS_IOERR },
          by rw [hfail h2 hm hl], rfl⟩)
      · refine Or.inr (Or.inl ⟨by rw [hrq h2 hm (by simp [hl])], ?_⟩)
        rw [hrq h2 hm (by simp [hl])]
        simp

/-- Witness for C4: on the sample head the selector returns LIVE path B and
the bio is dispatched to the disk of B, tagged multipath-routed. -/
theorem make_request_three_outcomes_witness :
    nvme_ns_head_make_request headAB
        { id := 201, bi_disk := none, bi_opf_nvme_mpath := false,
          bi_status := 0 } =
      (route_result.dispatched
        { id := 201, bi_disk := some 22, bi_opf_nvme_mpath := true,
          bi_status := 0 },
       { headAB with current_path := some nsB }) :=
  (make_request_three_outcomes headAB _).1 nsB
    { headAB with current_path := some nsB } (by decide)

/-- Claim C5: nvme_requeue_work swaps the pending list for an empty one and
resubmits exactly the detached generation, each bio retargeted to the
aggregate disk: count and identity sequence preserved (nothing lost or
duplicated), the post-swap queue is empty, and any bios enqueued during the
drain land in the fresh queue. -/
theorem requeue_work_drains_generation (head : nvme_ns_head) (ds : List bio) :
    (requeue_swap head).1 = head.requeue_list ∧
    (requeue_swap head).2.requeue_list = [] ∧
    nvme_requeue_work head =
      (requeue_resubmit head.disk (requeue_swap head).1, (requeue_swap head).2) ∧
    (nvme_requeue_work head).1.length = head.requeue_list.length ∧
    (nvme_requeue_work head).1.map bio.id = head.requeue_list.map bio.id ∧
    (∀ x ∈ (nvme_requeue_work head).1, x.bi_disk = head.disk) ∧
    (ds.foldl requeue_enqueue (nvme_requeue_work head).2).requeue_list = ds := by
  refine ⟨rfl, rfl, rfl, ?_, ?_, ?_, ?_⟩
  · exact requeue_resubmit_length head.disk head.requeue_list
  · exact requeue_resubmit_map_id head.disk head.requeue_list
  · exact requeue_resubmit_targets head.disk head.requeue_list
  · rw [show (nvme_requeue_work head).2 = { head with requeue_list := [] }
        from rfl,
      foldl_requeue_enqueue]
    simp

/-- Witness for C5: draining the sample head resubmits both pending bios and
a bio enqueued after the swap lands alone in the fresh queue. -/
theorem requeue_work_drains_generation_witness :
    (nvme_requeue_work headAB).1.length = headAB.requeue_list.length ∧
    (([bioX].foldl requeue_enqueue (nvme_requeue_work headAB).2)).requeue_list =
      [bioX] ∧
    ∀ x ∈ (nvme_requeue_work headAB).1, x.bi_disk = headAB.disk :=
  ⟨(requeue_work_drains_generation headAB [bioX]).2.2.2.1,
   (requeue_work_drains_generation headAB [bioX]).2.2.2.2.2.2,
   (requeue_work_drains_generation headAB [bioX]).2.2.2.2.2.1⟩

/-- Claim C7: nvme_mpath_remove_disk on a head with an aggregate disk
unpublishes the identity attributes, deletes the gendisk, marks the queue
dying, then flushes one final synchronous drain of the pending-requeue
queue — resubmitting exactly as many bios as were pending — before cleaning
up the queue and putting the disk; with no aggregate disk it does nothing,
so repeated calls are idempotent. -/
theorem remove_disk_drains_and_idempotent (head : nvme_ns_head) :
    (head.disk = none →
      nvme_mpath_remove_disk head = ([], head) ∧
      nvme_mpath_remove_disk ((nvme_mpath_remove_disk head).2) =
        nvme_mpath_remove_disk head) ∧
    (∀ d, head.disk = some d →
      (nvme_mpath_remove_disk head).1 =
        [teardown_event.sysfs_remove_group, teardown_event.del_gendisk,
         teardown_event.blk_set_queue_dying,
         teardown_event.requeue_work_flush (nvme_requeue_work head).1,
         teardown_event.blk_cleanup_queue, teardown_event.put_disk] ∧
      (nvme_requeue_work head).1.length = head.requeue_list.length ∧
      (nvme_mpath_remove_disk head).2.requeue_list = []) := by
  constructor
  · intro h
    have heq : nvme_mpath_remove_disk head = ([], head) := by
      unfold nvme_mpath_remove_disk
      rw [h]
    exact ⟨heq, by rw [heq]; exact heq⟩
  · intro d hd
    have hu : nvme_mpath_remove_disk head =
        ([teardown_event.sysfs_remove_group, teardown_event.del_gendisk,
          teardown_event.blk_set_queue_dying,
          teardown_event.requeue_work_flush (nvme_requeue_work head).1,
          teardown_event.blk_cleanup_queue, teardown_event.put_disk],
         (nvme_requeue_work head).2) := by
      unfold nvme_mpath_remove_disk
      rw [hd]
    refine ⟨by rw [hu], requeue_resubmit_length head.disk head.requeue_list,
      by rw [hu]; rfl⟩

/-- Witness for C7: tearing down the sample head (two pending bios) emits
the full trace with a two-bio final drain and leaves nothing pending;
tearing down a head that never had an aggregate disk does nothing twice. -/
theorem remove_disk_drains_and_idempotent_witness :
    (nvme_mpath_remove_disk headAB).2.requeue_list = [] ∧
    (nvme_requeue_work headAB).1.length = 2 ∧
    nvme_mpath_remove_disk headEmpty = ([], headEmpty) ∧
    nvme_mpath_remove_disk ((nvme_mpath_remove_disk headEmpty).2) =
      nvme_mpath_remove_disk headEmpty :=
  ⟨((remove_disk_drains_and_idempotent headAB).2 9 rfl).2.2,
   by decide,
   ((remove_disk_drains_and_idempotent headEmpty).1 rfl).1,
   ((remove_disk_drains_and_idempotent headEmpty).1 rfl).2⟩

/-- Claim C8: nvme_mpath_alloc_disk always initializes the pending-requeue
list, its lock and the drain work item; it allocates the aggregate disk and
registers the routing and polling entry points only when the subsystem CMIC
multi-controller bit and the multipath parameter are both set, otherwise it
returns 0 with no aggregate disk; on allocation failure it returns -ENOMEM,
leaves the head without an aggregate disk, and cleans up a queue that had
already been allocated. -/
theorem alloc_disk_branches (multipath : Bool) (ctrl : nvme_ctrl)
    (head : nvme_ns_head) (qok dok : Bool) (nd : Nat)
    (hfresh : head.disk = none) :
    (nvme_mpath_alloc_disk multipath ctrl head qok dok nd).requeue_list_initialized
        = true ∧
    (nvme_mpath_alloc_disk multipath ctrl head qok dok nd).requeue_lock_initialized
        = true ∧
    (nvme_mpath_alloc_disk multipath ctrl head qok dok nd).requeue_work_initialized
        = true ∧
    (ctrl.cmic &&& 2 = 0 ∨ multipath = false →
      (nvme_mpath_alloc_disk multipath ctrl head qok dok nd).ret = 0 ∧
      (nvme_mpath_alloc_disk multipath ctrl head qok dok nd).head.disk = none ∧
      (nvme_mpath_alloc_disk multipath ctrl head qok dok nd).queue_allocated
          = false ∧
      (nvme_mpath_alloc_disk multipath ctrl head qok dok nd).make_request_registered
          = false ∧
      (nvme_mpath_alloc_disk multipath ctrl head qok dok nd).poll_fn_registered
          = false) ∧
    (ctrl.cmic &&& 2 ≠ 0 → multipath = true → qok = true → dok = true →
      (nvme_mpath_alloc_disk multipath ctrl head qok dok nd).ret = 0 ∧
      (nvme_mpath_alloc_disk multipath ctrl head qok dok nd).head.disk
          = some nd ∧
      (nvme_mpath_alloc_disk multipath ctrl head qok dok nd).queue_allocated
          = true ∧
      (nvme_mpath_alloc_disk multipath ctrl head qok dok nd).make_request_registered
          = true ∧
      (nvme_mpath_alloc_disk multipath ctrl head qok dok nd).poll_fn_registered
          = true) ∧
    (ctrl.cmic &&& 2 ≠ 0 → multipath = true → (qok = false ∨ dok = false) →
      (nvme_mpath_alloc_disk multipath ctrl head qok dok nd).ret = -ENOMEM ∧
      (nvme_mpath_alloc_disk multipath ctrl head qok dok nd).head.disk = none ∧
      (qok = true →
        (nvme_mpath_alloc_disk multipath ctrl head qok dok nd).queue_cleaned
            = true)) := by
  cases multipath <;> cases qok <;> cases dok <;>
    by_cases h1 : ctrl.cmic &&& 2 = 0 <;>
      simp_all [nvme_mpath_alloc_disk, ENOMEM]

/-- Witness for C8: with the CMIC bit set, multipath on and both
allocations succeeding the aggregate disk is created and the entry points
registered; with the disk allocation failing the call reports -ENOMEM and
cleans up the queue. -/
theorem alloc_disk_branches_witness :
    (nvme_mpath_alloc_disk true { cmic := 2, vwc := 1 } headEmpty true true 42).ret
        = 0 ∧
    (nvme_mpath_alloc_disk true { cmic := 2, vwc := 1 } headEmpty true true 42).head.disk
        = some 42 ∧
    (nvme_mpath_alloc_disk true { cmic := 2, vwc := 1 } headEmpty true false 42).ret
        = -ENOMEM ∧
    (nvme_mpath_alloc_disk true { cmic := 2, vwc := 1 } headEmpty true false 42).queue_cleaned
        = true :=
  ⟨(alloc_disk_branches true { cmic := 2, vwc := 1 } headEmpty true true 42
        rfl).2.2.2.2.1 (by decide) rfl rfl rfl |>.1,
   (alloc_disk_branches true { cmic := 2, vwc := 1 } headEmpty true true 42
        rfl).2.2.2.2.1 (by decide) rfl rfl rfl |>.2.1,
   ((alloc_disk_branches true { cmic := 2, vwc := 1 } headEmpty true false 42
        rfl).2.2.2.2.2 (by decide) rfl (Or.inr rfl)).1,
   ((alloc_disk_branches true { cmic := 2, vwc := 1 } headEmpty true false 42
        rfl).2.2.2.2.2 (by decide) rfl (Or.inr rfl)).2.2 rfl⟩

end NvmeMultipath
